import Mathlib

/-!
Verification development for the `fe-webapp-cdk` pipeline design.

The repository declares a four-stage CodePipeline (Source, DockerBuild,
ViteBuild, Deploy).  The decision logic embedded in the declarations is
modelled here:

* the change-detection shell logic of the DockerBuild buildspec
  (`cdk-stack`, `dockerBuildProject.pre_build`):
  `if git rev-parse --quiet --verify HEAD~1 >/dev/null 2>&1; then
     if git diff --quiet HEAD~1 -- package.json pnpm-lock.yaml; then
       export SKIP_DOCKER_BUILD=true; else export SKIP_DOCKER_BUILD=false; fi;
   else export SKIP_DOCKER_BUILD=false; fi`
* the trigger/secret selection of the `GitHubSourceAction`
  (`oauthToken: isLocalStack ? unsafePlainText : secretsManager`,
   `trigger: isLocalStack ? POLL : WEBHOOK`) together with
  `isLocalStack = process.env.LOCALSTACK_ENDPOINT !== undefined` (`bin/cdk.ts`);
* the pipeline engine, stage executor and artifact store, which the
  repository only configures (the stage list, inputs/outputs and the skip
  predicate); their run-time behaviour is modelled from the spec.
-/

namespace FeWebappCdk

/-! ## Change Detector

A revision is modelled by the contents of its files: an association list
from path to file content.  `git diff --quiet HEAD~1 -- p₁ p₂` succeeds
exactly when none of the listed paths differs between the two revisions. -/

/-- The files of one source revision: path ↦ content. -/
abbrev RevFiles := List (String × String)

/-- Content of `path` in a revision (`none` when the file is absent). -/
def lookupFile : RevFiles → String → Option String
  | [], _ => none
  | (p, c) :: rest, q => if p = q then some c else lookupFile rest q

/-- Whether `git diff HEAD~1 -- path` reports a difference for `path`. -/
def fileDiffers (prev cur : RevFiles) (path : String) : Bool :=
  decide (lookupFile prev path ≠ lookupFile cur path)

/-- Whether `git diff --quiet HEAD~1 -- targets` fails (some watched path differs). -/
def anyTargetDiffers (prev cur : RevFiles) (targets : List String) : Bool :=
  targets.any (fileDiffers prev cur)

/-- The watched paths of the DockerBuild buildspec:
`git diff --quiet HEAD~1 -- package.json pnpm-lock.yaml`. -/
def comparisonTargets : List String := ["package.json", "pnpm-lock.yaml"]

/-- The comparison basis recorded by a `ChangeDecision`: the single prior
revision used, or the fact that no prior revision was available. -/
inductive ComparisonBasis where
  | priorRevision (files : RevFiles)
  | noPriorRevision
deriving DecidableEq

/-- Outcome of the change detector: the skip flag plus the basis used. -/
structure ChangeDecision where
  skip : Bool
  basis : ComparisonBasis
deriving DecidableEq

/-- The buildspec's pre_build decision.  `prior` is `HEAD~1` when
`git rev-parse --quiet --verify HEAD~1` succeeds, `none` otherwise
(first run / shallow history).  `skip` is the value exported as
`SKIP_DOCKER_BUILD`. -/
def decide (current : RevFiles) (prior : Option RevFiles)
    (targets : List String) : ChangeDecision :=
  match prior with
  | none => ⟨false, .noPriorRevision⟩
  | some p => ⟨!anyTargetDiffers p current targets, .priorRevision p⟩

/-- The same decision taken over the revision history of the checkout:
`priors` lists the revisions before `current`, most recent first, so
`HEAD~1` is `priors.head?`.  Only that single revision is consulted. -/
def decideFromHistory (current : RevFiles) (priors : List RevFiles)
    (targets : List String) : ChangeDecision :=
  decide current priors.head? targets

/-! ## Trigger Selector

From `bin/cdk.ts`: `const isLocalStack = process.env.LOCALSTACK_ENDPOINT
!== undefined`, and from the `GitHubSourceAction` of the stack: the
oauth token is a plaintext secret and the trigger is `POLL` when
`isLocalStack`, otherwise a Secrets-Manager secret and `WEBHOOK`. -/

/-- The `GitHubTrigger` values used by the source action. -/
inductive GitHubTrigger where
  | POLL
  | WEBHOOK
deriving DecidableEq

/-- How the repository access secret is resolved:
`SecretValue.unsafePlainText` vs `SecretValue.secretsManager`. -/
inductive SecretResolution where
  | plaintext
  | secretsManager
deriving DecidableEq

/-- The trigger configuration produced for the source action. -/
structure TriggerConfig where
  mode : GitHubTrigger
  secretResolution : SecretResolution
deriving DecidableEq

/-- Model of `process.env`: a partial map from variable name to value. -/
abbrev ProcessEnv := String → Option String

/-- From `bin/cdk.ts`: `process.env.LOCALSTACK_ENDPOINT !== undefined`. -/
def isLocalStack (env : ProcessEnv) : Bool :=
  (env "LOCALSTACK_ENDPOINT").isSome

/-- The environment-mode → trigger-configuration mapping of the
`GitHubSourceAction` declaration (`oauthToken` and `trigger` ternaries). -/
def resolve (isLS : Bool) : TriggerConfig :=
  { mode := if isLS then .POLL else .WEBHOOK
    secretResolution := if isLS then .plaintext else .secretsManager }

/-! ## Artifact Store

Modelled from the spec: the Artifact Store component is not implemented in
the repository (CodePipeline's artifact handling is configured, not coded);
the spec gives its contract: `put` fails with `DuplicateArtifact` when the
name was already written in the current run, `get` fails with `NotFound`
when the name was never written, and each run owns an isolated namespace. -/

/-- A named, write-once artifact produced by one stage of a run. -/
structure Artifact where
  name : String
  producingStage : String
  payload : List Nat
  created : Nat
deriving DecidableEq

/-- The artifacts written so far in one pipeline run. -/
abbrev ArtifactStore := List Artifact

/-- Errors of the artifact-store contract. -/
inductive StoreError where
  | DuplicateArtifact
  | NotFound
deriving DecidableEq

/-- Modelled from the spec: `put(name, producingStage, payload)` — fails
with `DuplicateArtifact` if `name` was already written in the current run. -/
def ArtifactStore.put (s : ArtifactStore) (name producingStage : String)
    (payload : List Nat) (t : Nat) : Except StoreError ArtifactStore :=
  if s.any (fun a => a.name = name) then .error .DuplicateArtifact
  else .ok (s ++ [⟨name, producingStage, payload, t⟩])

/-- Modelled from the spec: `get(name)` — fails with `NotFound` if the
name has never been written in the current run. -/
def ArtifactStore.get (s : ArtifactStore) (name : String) :
    Except StoreError Artifact :=
  match s.find? (fun a => a.name = name) with
  | some a => .ok a
  | none => .error .NotFound

/-- Modelled from the spec: each pipeline run owns an isolated artifact
namespace keyed by run identifier; there is no cross-run lookup. -/
abbrev RunStores := Nat → ArtifactStore

/-- A `put` scoped to run `r`: on success only run `r`'s namespace changes;
on failure every namespace is left unchanged. -/
def RunStores.putIn (σ : RunStores) (r : Nat) (name producingStage : String)
    (payload : List Nat) (t : Nat) : Except StoreError Unit × RunStores :=
  match (σ r).put name producingStage payload t with
  | .ok s' => (.ok (), fun r' => if r' = r then s' else σ r')
  | .error e => (.error e, σ)

/-- A `get` scoped to run `r`. -/
def RunStores.getIn (σ : RunStores) (r : Nat) (name : String) :
    Except StoreError Artifact :=
  (σ r).get name

/-! ## Stages and the Stage Executor

The stage list is the repository's pipeline declaration
(`unifiedPipeline.addStage` calls): Source produces the source artifact,
DockerBuild consumes it and carries the skip predicate (`outputs: []`),
ViteBuild consumes it and produces `ViteBuildOutput`, Deploy consumes
`ViteBuildOutput`.  The executor's run-time behaviour is modelled from
the spec (the shell programs are opaque; only their exit codes matter). -/

/-- Immutable stage configuration. -/
structure Stage where
  name : String
  input : Option String
  output : Option String
  hasSkipPredicate : Bool
deriving DecidableEq

/-- The `Source` stage: `GitHubSourceAction`, output `sourceOutput`. -/
def sourceStage : Stage := ⟨"Source", none, some "SourceOutput", false⟩

/-- The `DockerBuild` stage: input `sourceOutput`, `outputs: []`, conditional
on `SKIP_DOCKER_BUILD`. -/
def dockerBuildStage : Stage := ⟨"DockerBuild", some "SourceOutput", none, true⟩

/-- The `ViteBuild` stage: input `sourceOutput`, output `ViteBuildOutput`. -/
def viteBuildStage : Stage := ⟨"ViteBuild", some "SourceOutput", some "ViteBuildOutput", false⟩

/-- The `Deploy` stage: `S3DeployAction` on input `ViteBuildOutput`, followed
by the CloudFront invalidation signal. -/
def deployStage : Stage := ⟨"Deploy", some "ViteBuildOutput", none, false⟩

/-- The declared stage order of `unifiedPipeline`. -/
def pipelineStages : List Stage :=
  [sourceStage, dockerBuildStage, viteBuildStage, deployStage]

/-- Result status of one stage of a run. -/
inductive StageStatus where
  | Skipped
  | Succeeded
  | Failed
deriving DecidableEq

/-- Record of one executed (or skipped) stage, append-only within a run. -/
structure StageResult where
  stageName : String
  status : StageStatus
  exitCode : Option Nat
  startTime : Nat
  endTime : Nat
deriving DecidableEq

/-- Observable side effects of a run, in order of occurrence. -/
inductive Event where
  | invokedProgram (stageName : String) (exitCode : Nat)
  | readArtifact (stageName name : String)
  | wroteArtifact (stageName name : String)
  | invalidate (artifactRef : String)
deriving DecidableEq

/-- Per-run external data: the trigger's revision, the prior history
(most recent first), and, per stage name, the opaque shell program's exit
code, its wall-clock duration, and the bytes found at the declared output
location after a successful run of the program. -/
structure RunEnv where
  currentRevision : RevFiles
  priorRevisions : List RevFiles
  exitCode : String → Nat
  duration : String → Nat
  payloadOf : String → List Nat

/-- Outcome of executing a single stage. -/
structure ExecOutcome where
  result : StageResult
  store : ArtifactStore
  events : List Event
deriving DecidableEq

/-- Modelled from the spec: the Stage Executor's program invocation (the
part after input resolution and the skip check): invoke the shell program,
capture the exit code, and on zero exit write the declared output artifact. -/
def invokeProgram (env : RunEnv) (st : Stage) (store : ArtifactStore)
    (now : Nat) (readEvents : List Event) : ExecOutcome :=
  let code := env.exitCode st.name
  let fin := now + env.duration st.name
  let evts := readEvents ++ [.invokedProgram st.name code]
  if code = 0 then
    match st.output with
    | some outName =>
      match store.put outName st.name (env.payloadOf st.name) fin with
      | .ok s' =>
        ⟨⟨st.name, .Succeeded, some code, now, fin⟩, s',
          evts ++ [.wroteArtifact st.name outName]⟩
      | .error _ =>
        ⟨⟨st.name, .Failed, some code, now, fin⟩, store, evts⟩
    | none => ⟨⟨st.name, .Succeeded, some code, now, fin⟩, store, evts⟩
  else ⟨⟨st.name, .Failed, some code, now, fin⟩, store, evts⟩

/-- Modelled from the spec: `execute(stage, run) -> StageResult`.  A true
skip predicate bypasses the stage with no side effect; otherwise the
declared input is resolved (`MissingArtifact` is fatal to the run and
recorded on the stage's result), the program is invoked and its output
artifact stored on success. -/
def executeStage (env : RunEnv) (st : Stage) (skipPred : Bool)
    (store : ArtifactStore) (now : Nat) : ExecOutcome :=
  if st.hasSkipPredicate && skipPred then
    ⟨⟨st.name, .Skipped, none, now, now⟩, store, []⟩
  else
    match st.input with
    | some inName =>
      match store.get inName with
      | .error _ => ⟨⟨st.name, .Failed, none, now, now⟩, store, []⟩
      | .ok _ => invokeProgram env st store now [.readArtifact st.name inName]
    | none => invokeProgram env st store now []

/-! ## Pipeline Engine

Modelled from the spec: a state machine over the stage ordinal position,
`NotStarted -> Running(i) -> { Running(i+1) | Failed | Succeeded }`;
stages run strictly in declared order, the run fails fast on the first
Failed result, and on success the deploy/invalidate collaborator is
signalled exactly once.  The DockerBuild skip predicate is set per run
from the Change Detector's decision. -/

/-- Overall status of a pipeline run. -/
inductive RunStatus where
  | Pending
  | Running (i : Nat)
  | Succeeded
  | Failed
deriving DecidableEq

/-- The mutable state of one pipeline run. -/
structure RunState where
  results : List StageResult
  store : ArtifactStore
  clock : Nat
  status : RunStatus
  events : List Event
deriving DecidableEq

/-- The state in which a run is created when a trigger event is accepted. -/
def initState : RunState := ⟨[], [], 0, .Pending, []⟩

/-- The per-run skip-predicate value: the engine queries the Change
Detector with the trigger's revision information; only the stage that
declares a skip predicate can be skipped. -/
def skipResultFor (env : RunEnv) (st : Stage) : Bool :=
  st.hasSkipPredicate &&
    (decideFromHistory env.currentRevision env.priorRevisions comparisonTargets).skip

/-- One transition of the engine's state machine. -/
def stepRun (env : RunEnv) (s : RunState) : RunState :=
  match s.status with
  | .Pending => { s with status := .Running 0 }
  | .Running i =>
    match pipelineStages[i]? with
    | none =>
      { s with status := .Succeeded,
               events := s.events ++ [.invalidate "ViteBuildOutput"] }
    | some st =>
      let o := executeStage env st (skipResultFor env st) s.store s.clock
      { results := s.results ++ [o.result]
        store := o.store
        clock := o.result.endTime
        status := if o.result.status = .Failed then .Failed else .Running (i + 1)
        events := s.events ++ o.events }
  | .Succeeded => s
  | .Failed => s

/-- The states a run can reach from its creation. -/
inductive Reachable (env : RunEnv) : RunState → Prop where
  | init : Reachable env initState
  | step {s : RunState} : Reachable env s → Reachable env (stepRun env s)

/-- The terminal state of a run: six transitions always suffice for the
four-stage pipeline (start, four stages, finish), and terminal states are
fixed points of `stepRun`. -/
def finalState (env : RunEnv) : RunState :=
  stepRun env (stepRun env (stepRun env (stepRun env (stepRun env (stepRun env initState)))))

/-- The artifact references for which the deploy/invalidate collaborator
was signalled, in order. -/
def invalidations (evts : List Event) : List String :=
  evts.filterMap (fun e => match e with | .invalidate a => some a | _ => none)

/-- The stage programs that were invoked, in order, with their exit codes. -/
def invocations (evts : List Event) : List (String × Nat) :=
  evts.filterMap (fun e => match e with
    | .invokedProgram n c => some (n, c)
    | _ => none)

/-- A concrete run environment: every stage program succeeds and the
watched paths are unchanged since the prior revision. -/
def exampleEnvAllOk : RunEnv :=
  ⟨[("package.json", "a")], [[("package.json", "a")]], fun _ => 0, fun _ => 1, fun _ => []⟩

/-- A concrete run environment: first-ever run (no prior revision), the
ViteBuild program exits with code 2, every other program succeeds. -/
def exampleEnvViteFails : RunEnv :=
  ⟨[("package.json", "a")], [], fun n => if n = "ViteBuild" then 2 else 0, fun _ => 1, fun _ => []⟩

/-! ## Theorems -/

/-- Claim C1: with a prior revision available, the change decision skips
exactly when none of the declared comparison targets differs between the
current revision and the immediately preceding one, and the decision does
not depend on any revision older than the immediately preceding one. -/
theorem change_skip_iff_no_watched_diff (cur p : RevFiles)
    (rest : List RevFiles) (targets : List String) :
    ((decideFromHistory cur (p :: rest) targets).skip = true ↔
      ∀ t ∈ targets, lookupFile p t = lookupFile cur t) ∧
    (∀ rest' : List RevFiles,
      decideFromHistory cur (p :: rest) targets =
        decideFromHistory cur (p :: rest') targets) ∧
    comparisonTargets = ["package.json", "pnpm-lock.yaml"] := by
  refine ⟨?_, fun _ => rfl, rfl⟩
  simp [decideFromHistory, FeWebappCdk.decide, anyTargetDiffers, fileDiffers]

/-- Claim C2: with no prior revision, the change decision is skip = false
with basis `noPriorRevision`, whatever the current revision's content; the
decision is an ordinary value, not a failure, and the engine's per-run
skip predicate for the DockerBuild stage is false in that case. -/
theorem change_no_prior_never_skips (cur : RevFiles) (targets : List String) :
    decideFromHistory cur [] targets = ⟨false, .noPriorRevision⟩ ∧
    (∀ (ex du : String → Nat) (pl : String → List Nat),
      skipResultFor ⟨cur, [], ex, du, pl⟩ dockerBuildStage = false) :=
  ⟨rfl, fun _ _ _ => rfl⟩

/-- Claim C9: the trigger-selector mapping is a total function: the
local/emulated mode yields a polling trigger with a plaintext secret, the
production mode yields a webhook trigger with a managed secret, and equal
environment modes yield equal configurations. -/
theorem resolve_trigger_config :
    resolve true = ⟨.POLL, .plaintext⟩ ∧
    resolve false = ⟨.WEBHOOK, .secretsManager⟩ ∧
    ∀ m₁ m₂ : Bool, m₁ = m₂ → resolve m₁ = resolve m₂ :=
  ⟨rfl, rfl, fun _ _ h => h ▸ rfl⟩

/-- Claim C9 witness: both concrete environment modes, with the
determinism conjunct applied at the production mode. -/
theorem resolve_trigger_config_witness :
    resolve false = ⟨.WEBHOOK, .secretsManager⟩ ∧ resolve false = resolve false :=
  ⟨resolve_trigger_config.2.1, resolve_trigger_config.2.2 false false rfl⟩

/-- Claim C10: the environment is treated as local/emulated exactly when
`LOCALSTACK_ENDPOINT` is defined, whatever its value (the empty string
included); only presence is inspected, and an undefined variable selects
the production configuration (webhook trigger, managed secret). -/
theorem localstack_presence_selects_mode (env : ProcessEnv) :
    (isLocalStack env = true ↔ env "LOCALSTACK_ENDPOINT" ≠ none) ∧
    (∀ v : String,
      isLocalStack (Function.update env "LOCALSTACK_ENDPOINT" (some v)) = true) ∧
    (∀ env₂ : ProcessEnv,
      (env "LOCALSTACK_ENDPOINT").isSome = (env₂ "LOCALSTACK_ENDPOINT").isSome →
        isLocalStack env = isLocalStack env₂) ∧
    (env "LOCALSTACK_ENDPOINT" = none →
      resolve (isLocalStack env) = ⟨.WEBHOOK, .secretsManager⟩) := by
  refine ⟨?_, ?_, fun env₂ h => h, fun h => ?_⟩
  · simp [isLocalStack, Option.isSome_iff_ne_none]
  · intro v; simp [isLocalStack]
  · simp [isLocalStack, h, resolve]

/-- Claim C10 witness: the empty environment selects the production
configuration, and defining `LOCALSTACK_ENDPOINT` to the empty string
selects the local mode. -/
theorem localstack_presence_selects_mode_witness :
    isLocalStack (Function.update (fun _ => none) "LOCALSTACK_ENDPOINT" (some "")) = true ∧
    resolve (isLocalStack (fun _ => none)) = ⟨.WEBHOOK, .secretsManager⟩ :=
  ⟨(localstack_presence_selects_mode (fun _ => none)).2.1 "",
   (localstack_presence_selects_mode (fun _ => none)).2.2.2 rfl⟩

/-- Claim C3: if a stage's shell program exits non-zero, that stage's
result is Failed, the run's overall status is Failed, no stage executes
after the first failed one (only the last recorded result can be Failed),
the invalidate collaborator is never signalled, and no stage program is
invoked twice (no in-run retry). -/
theorem nonzero_exit_fails_run (env : RunEnv) (s : String) (c : Nat)
    (hm : Event.invokedProgram s c ∈ (finalState env).events) (hc : c ≠ 0) :
    (∃ r ∈ (finalState env).results, r.stageName = s ∧ r.status = .Failed) ∧
    (finalState env).status = .Failed ∧
    (∀ r ∈ (finalState env).results.dropLast, r.status ≠ .Failed) ∧
    invalidations (finalState env).events = [] ∧
    ((invocations (finalState env).events).map Prod.fst).Nodup := by
  by_cases h1 : env.exitCode "Source" = 0 <;>
  by_cases hsk : (decideFromHistory env.currentRevision env.priorRevisions comparisonTargets).skip <;>
  by_cases h2 : env.exitCode "DockerBuild" = 0 <;>
  by_cases h3 : env.exitCode "ViteBuild" = 0 <;>
  by_cases h4 : env.exitCode "Deploy" = 0 <;>
  simp [finalState, stepRun, executeStage, invokeProgram, skipResultFor, initState,
    pipelineStages, sourceStage, dockerBuildStage, viteBuildStage, deployStage,
    ArtifactStore.get, ArtifactStore.put, hc, h1, hsk, h2, h3, h4] at hm <;>
  obtain ⟨rfl, rfl⟩ := hm <;>
  simp [finalState, stepRun, executeStage, invokeProgram, skipResultFor, initState,
    pipelineStages, sourceStage, dockerBuildStage, viteBuildStage, deployStage,
    ArtifactStore.get, ArtifactStore.put, invalidations, invocations, h1, hsk, h2, h3, h4]

/-- Claim C3 witness: in the run where the ViteBuild program exits 2,
the ViteBuild result is Failed, the run is Failed, only the last result
is Failed, nothing was invalidated, and no program ran twice. -/
theorem nonzero_exit_fails_run_witness :
    (∃ r ∈ (finalState exampleEnvViteFails).results,
      r.stageName = "ViteBuild" ∧ r.status = .Failed) ∧
    (finalState exampleEnvViteFails).status = .Failed ∧
    (∀ r ∈ (finalState exampleEnvViteFails).results.dropLast, r.status ≠ .Failed) ∧
    invalidations (finalState exampleEnvViteFails).events = [] ∧
    ((invocations (finalState exampleEnvViteFails).events).map Prod.fst).Nodup :=
  nonzero_exit_fails_run exampleEnvViteFails "ViteBuild" 2 (by decide) (by decide)

/-- Claim C4 counterexample: the claim's Succeeded-iff direction fails in
the initial reachable state of a run: no stage result exists yet (so every
stage result is vacuously Succeeded or Skipped), but the overall status is
Pending, not Succeeded. -/
theorem run_status_iff_fails_when_pending :
    Reachable exampleEnvAllOk initState ∧
    (∀ r ∈ initState.results, r.status = .Succeeded ∨ r.status = .Skipped) ∧
    initState.status ≠ .Succeeded :=
  ⟨.init, by simp [initState], by simp [initState]⟩

/-- Claim C4 amended: in every reachable state of a run, the overall
status is Failed iff at least one non-skipped stage result is Failed, and
Succeeded implies that every stage result is Succeeded or Skipped; the
Succeeded direction is an equivalence in the terminal states (overall
status Succeeded or Failed), not in intermediate ones. -/
theorem run_status_invariant (env : RunEnv) (s : RunState)
    (hr : Reachable env s) :
    (s.status = .Failed ↔ ∃ r ∈ s.results, r.status ≠ .Skipped ∧ r.status = .Failed) ∧
    (s.status = .Succeeded → ∀ r ∈ s.results, r.status = .Succeeded ∨ r.status = .Skipped) ∧
    ((s.status = .Succeeded ∨ s.status = .Failed) →
      (s.status = .Succeeded ↔
        ∀ r ∈ s.results, r.status = .Succeeded ∨ r.status = .Skipped)) := by
  induction hr with
  | init => simp [initState]
  | @step s hr ih =>
    obtain ⟨rs, sto, ck, status, ev⟩ := s
    obtain ⟨hF, hS, hT⟩ := ih
    cases status with
    | Pending =>
      simp only [stepRun] at hF ⊢
      simp at hF ⊢
      exact hF
    | Succeeded => exact ⟨hF, hS, hT⟩
    | Failed => exact ⟨hF, hS, hT⟩
    | Running i =>
      rcases hst : pipelineStages[i]? with _ | st
      · simp only [stepRun, hst] at hF ⊢
        simp at hF ⊢
        refine ⟨hF, fun r hr => ?_⟩
        cases hsr : r.status with
        | Skipped => exact Or.inr rfl
        | Succeeded => exact Or.inl rfl
        | Failed => exact absurd hsr (hF r hr (by simp [hsr]))
      · by_cases ho :
          (executeStage env st (skipResultFor env st) sto ck).result.status = .Failed
        · simp only [stepRun, hst, ho] at hF ⊢
          simp [ho] at hF ⊢
          exact ⟨⟨_, Or.inr rfl, by simp [ho], ho⟩,
            ⟨_, Or.inr rfl, by simp [ho], by simp [ho]⟩⟩
        · simp only [stepRun, hst, ho] at hF ⊢
          simp [ho] at hF ⊢
          rintro x (hx | rfl) hns
          · exact hF x hx hns
          · exact ho

/-- Claim C4 amended witness: the invariant applied to the initial state
of the all-success run. -/
theorem run_status_invariant_witness :
    (initState.status = .Failed ↔
      ∃ r ∈ initState.results, r.status ≠ .Skipped ∧ r.status = .Failed) ∧
    (initState.status = .Succeeded →
      ∀ r ∈ initState.results, r.status = .Succeeded ∨ r.status = .Skipped) ∧
    ((initState.status = .Succeeded ∨ initState.status = .Failed) →
      (initState.status = .Succeeded ↔
        ∀ r ∈ initState.results, r.status = .Succeeded ∨ r.status = .Skipped)) :=
  run_status_invariant exampleEnvAllOk initState .init

/-- Claim C5: stage results appear in the declared stage order
(Source, DockerBuild, ViteBuild, Deploy — possibly cut short by a
failure), every stage's interval is well-formed, and each stage starts no
earlier than the previous stage ended (sequential, non-overlapping
execution). -/
theorem stages_execute_in_declared_order (env : RunEnv) :
    pipelineStages.map Stage.name = ["Source", "DockerBuild", "ViteBuild", "Deploy"] ∧
    (finalState env).results.map StageResult.stageName =
      (pipelineStages.map Stage.name).take (finalState env).results.length ∧
    (∀ r ∈ (finalState env).results, r.startTime ≤ r.endTime) ∧
    List.Chain' (fun a b => a.endTime ≤ b.startTime) (finalState env).results := by
  by_cases h1 : env.exitCode "Source" = 0 <;>
  by_cases hsk : (decideFromHistory env.currentRevision env.priorRevisions comparisonTargets).skip <;>
  by_cases h2 : env.exitCode "DockerBuild" = 0 <;>
  by_cases h3 : env.exitCode "ViteBuild" = 0 <;>
  by_cases h4 : env.exitCode "Deploy" = 0 <;>
  simp [finalState, stepRun, executeStage, invokeProgram, skipResultFor, initState,
    pipelineStages, sourceStage, dockerBuildStage, viteBuildStage, deployStage,
    ArtifactStore.get, ArtifactStore.put, List.chain'_cons, h1, hsk, h2, h3, h4]

/-- Claim C7: when the per-run skip predicate of a stage that declares
one evaluates true, executing the stage yields exactly a Skipped result
with no exit code, the artifact store unchanged, and an empty event trace
(no program invocation, no artifact read or write, no other side effect). -/
theorem true_skip_predicate_bypasses_stage (env : RunEnv) (st : Stage)
    (store : ArtifactStore) (now : Nat)
    (h : skipResultFor env st = true) :
    executeStage env st (skipResultFor env st) store now =
      ⟨⟨st.name, .Skipped, none, now, now⟩, store, []⟩ := by
  have hp : st.hasSkipPredicate = true := by
    rcases Bool.and_eq_true _ _ |>.mp (by simpa [skipResultFor] using h) with ⟨hp, _⟩
    exact hp
  simp [executeStage, h, hp]

/-- Claim C7 witness: in the all-success environment the DockerBuild
skip predicate holds, and executing DockerBuild on the store holding the
source artifact at time 1 records only the Skipped result. -/
theorem true_skip_predicate_bypasses_stage_witness :
    executeStage exampleEnvAllOk dockerBuildStage
        (skipResultFor exampleEnvAllOk dockerBuildStage)
        [⟨"SourceOutput", "Source", [], 1⟩] 1 =
      ⟨⟨"DockerBuild", .Skipped, none, 1, 1⟩, [⟨"SourceOutput", "Source", [], 1⟩], []⟩ :=
  true_skip_predicate_bypasses_stage exampleEnvAllOk dockerBuildStage
    [⟨"SourceOutput", "Source", [], 1⟩] 1 (by decide)

/-- Claim C8: a second `put` under a name already written in the same run
fails with DuplicateArtifact and leaves every run's store unchanged; a
`get` of a name never written in the run fails with NotFound; and a `put`
scoped to one run is invisible to `get`s scoped to any other run. -/
theorem artifact_store_contract :
    (∀ (σ σ₁ : RunStores) (r : Nat) (n p p' : String) (pay pay' : List Nat) (t t' : Nat),
      RunStores.putIn σ r n p pay t = (.ok (), σ₁) →
        (RunStores.putIn σ₁ r n p' pay' t').1 = .error .DuplicateArtifact ∧
        (RunStores.putIn σ₁ r n p' pay' t').2 = σ₁) ∧
    (∀ (σ : RunStores) (r : Nat) (n : String),
      (∀ a ∈ σ r, a.name ≠ n) → RunStores.getIn σ r n = .error .NotFound) ∧
    (∀ (σ : RunStores) (r r' : Nat) (n m p : String) (pay : List Nat) (t : Nat),
      r ≠ r' →
        RunStores.getIn (RunStores.putIn σ r n p pay t).2 r' m =
          RunStores.getIn σ r' m) := by
  refine ⟨?_, ?_, ?_⟩
  · intro σ σ₁ r n p p' pay pay' t t' h
    have hσ₁ : σ₁ r = σ r ++ [⟨n, p, pay, t⟩] := by
      by_cases hd : (σ r).any (fun a => a.name = n)
      · simp [RunStores.putIn, ArtifactStore.put, hd] at h
      · simp [RunStores.putIn, ArtifactStore.put, hd] at h
        rw [← h]
        simp
    have hdup : (σ₁ r).any (fun a => a.name = n) = true := by
      simp [hσ₁]
    constructor <;> simp [RunStores.putIn, ArtifactStore.put, hdup]
  · intro σ r n h
    have : (σ r).find? (fun a => a.name = n) = none := by
      rw [List.find?_eq_none]
      intro a ha
      simpa using h a ha
    simp [RunStores.getIn, ArtifactStore.get, this]
  · intro σ r r' n m p pay t hne
    unfold RunStores.putIn
    rcases hput : (σ r).put n p pay t with s' | e <;>
      simp [RunStores.getIn, hput, Ne.symm hne]

/-- Claim C8 witness: with run 0 holding one artifact named `a`, a second
`put` of `a` in run 0 is rejected with the stores untouched, a `get` of
the unwritten name `b` fails with NotFound, and a `put` into run 0 leaves
run 1's (empty) namespace unchanged. -/
theorem artifact_store_contract_witness :
    ((RunStores.putIn (fun r' => if r' = 0 then [⟨"a", "Source", [], 0⟩] else []) 0 "a" "ViteBuild" [] 1).1 =
        .error .DuplicateArtifact ∧
      (RunStores.putIn (fun r' => if r' = 0 then [⟨"a", "Source", [], 0⟩] else []) 0 "a" "ViteBuild" [] 1).2 =
        (fun r' => if r' = 0 then [⟨"a", "Source", [], 0⟩] else [])) ∧
    RunStores.getIn (fun r' => if r' = 0 then [⟨"a", "Source", [], 0⟩] else []) 0 "b" =
      .error .NotFound ∧
    RunStores.getIn
        (RunStores.putIn (fun r' => if r' = 0 then [⟨"a", "Source", [], 0⟩] else []) 0 "c" "ViteBuild" [] 1).2 1 "c" =
      RunStores.getIn (fun r' => if r' = 0 then [⟨"a", "Source", [], 0⟩] else []) 1 "c" :=
  ⟨artifact_store_contract.1 (fun _ => [])
      (fun r' => if r' = 0 then [⟨"a", "Source", [], 0⟩] else []) 0 "a" "Source" "ViteBuild" [] [] 0 1 rfl,
    artifact_store_contract.2.1 (fun r' => if r' = 0 then [⟨"a", "Source", [], 0⟩] else []) 0 "b"
      (by decide),
    artifact_store_contract.2.2 (fun r' => if r' = 0 then [⟨"a", "Source", [], 0⟩] else []) 0 1 "c" "c"
      "ViteBuild" [] 1 (by decide)⟩

/-- Claim C6: a run in which every stage result is Succeeded or Skipped
ends with overall status Succeeded and signals the deploy/invalidate
collaborator exactly once. -/
theorem success_signals_invalidate_once (env : RunEnv)
    (h : ∀ r ∈ (finalState env).results, r.status ≠ .Failed) :
    (finalState env).status = .Succeeded ∧
      invalidations (finalState env).events = ["ViteBuildOutput"] := by
  by_cases h1 : env.exitCode "Source" = 0
  · by_cases hsk : (decideFromHistory env.currentRevision env.priorRevisions comparisonTargets).skip
    · by_cases h3 : env.exitCode "ViteBuild" = 0
      · by_cases h4 : env.exitCode "Deploy" = 0
        · simp [finalState, stepRun, executeStage, invokeProgram, skipResultFor, initState,
            pipelineStages, sourceStage, dockerBuildStage, viteBuildStage, deployStage,
            ArtifactStore.get, ArtifactStore.put, invalidations, h1, hsk, h3, h4]
        · simp [finalState, stepRun, executeStage, invokeProgram, skipResultFor, initState,
            pipelineStages, sourceStage, dockerBuildStage, viteBuildStage, deployStage,
            ArtifactStore.get, ArtifactStore.put, h1, hsk, h3, h4] at h
      · simp [finalState, stepRun, executeStage, invokeProgram, skipResultFor, initState,
          pipelineStages, sourceStage, dockerBuildStage, viteBuildStage, deployStage,
          ArtifactStore.get, ArtifactStore.put, h1, hsk, h3] at h
    · by_cases h2 : env.exitCode "DockerBuild" = 0
      · by_cases h3 : env.exitCode "ViteBuild" = 0
        · by_cases h4 : env.exitCode "Deploy" = 0
          · simp [finalState, stepRun, executeStage, invokeProgram, skipResultFor, initState,
              pipelineStages, sourceStage, dockerBuildStage, viteBuildStage, deployStage,
              ArtifactStore.get, ArtifactStore.put, invalidations, h1, hsk, h2, h3, h4]
          · simp [finalState, stepRun, executeStage, invokeProgram, skipResultFor, initState,
              pipelineStages, sourceStage, dockerBuildStage, viteBuildStage, deployStage,
              ArtifactStore.get, ArtifactStore.put, h1, hsk, h2, h3, h4] at h
        · simp [finalState, stepRun, executeStage, invokeProgram, skipResultFor, initState,
            pipelineStages, sourceStage, dockerBuildStage, viteBuildStage, deployStage,
            ArtifactStore.get, ArtifactStore.put, h1, hsk, h2, h3] at h
      · simp [finalState, stepRun, executeStage, invokeProgram, skipResultFor, initState,
          pipelineStages, sourceStage, dockerBuildStage, viteBuildStage, deployStage,
          ArtifactStore.get, ArtifactStore.put, h1, hsk, h2] at h
  · simp [finalState, stepRun, executeStage, invokeProgram, skipResultFor, initState,
      pipelineStages, sourceStage, dockerBuildStage, viteBuildStage, deployStage,
      ArtifactStore.get, ArtifactStore.put, h1] at h

/-- Claim C6 witness: the all-success environment (watched paths
unchanged, every program exiting 0) reaches Succeeded with exactly one
invalidation signal. -/
theorem success_signals_invalidate_once_witness :
    (finalState exampleEnvAllOk).status = .Succeeded ∧
      invalidations (finalState exampleEnvAllOk).events = ["ViteBuildOutput"] :=
  success_signals_invalidate_once exampleEnvAllOk (by decide)

end FeWebappCdk

